import Mathlib

/-!
# Shallow embedding of `src/main.go` (convto/magiclick)

The program is a single-threaded idle game.  All game state lives in the Go
struct `Game`; the simulation is driven by two operations:

* `advance` — the per-tick portion of `(*Game).Update` (src/main.go lines
  96–143): click-animation decay, the animation clock, the 1-second mana
  accrual (tick counter), and the per-generator rotation/multiplier step.
  The input-driven branch of `Update` (lines 91–94) merely dispatches a mouse
  click to `handleGeneratorClicks`; following the spec's decomposition it is
  embedded separately as `purchase`.
* `purchase i` — the per-generator purchase logic of
  `(*Game).handleGeneratorClicks` (src/main.go lines 340–355): the guarded
  "mana ≥ cost and level < 100" branch for the generator whose hit-zone was
  clicked.

Modelling conventions:

* Go `float64` values are modelled as exact rationals (`ℚ`); the spec states
  its numeric properties "within floating tolerance", and every operation the
  program performs on these fields is `+`, `-`, `*`, `/` by a constant and
  order comparison, all of which the rational model tracks exactly.
* Rotation angles are stored as their coefficient of π: the Go value
  `rotationAngles[i]` (radians) is `π *` the model value.  Every operation on
  angles in the source is linear (add `totalSpeed * 2π / 60`, compare with
  `2π`, subtract `2π`), so dividing everything by the positive constant π is
  exact: the Go threshold `2π` becomes `2`, and the per-tick step
  `speedPerLevel * level * 2π / 60` becomes `speedPerLevel * level * 2 / 60`.
* Go `int` fields that are only incremented from a non-negative start
  (`level`, `tickCounter`, `clickAnimation`) are `ℕ`; `manaPerSec` is `int64`,
  modelled as `ℤ` with Go's truncating `int64(·)` conversion.
* Presentation-only fields never read by the simulation (`orbX`, `orbY`,
  `fontSource`) are omitted; `orbClicked`, `clickAnimation` and
  `animationTime`, which `Update` does mutate, are kept.
-/

/-- The Go struct `Generator` (src/main.go lines 38–46). -/
structure Generator where
  name : String
  cost : ℚ
  speedPerLevel : ℚ
  level : ℕ
  description : String
  timer : ℕ
  manaMultiplier : ℚ
  deriving DecidableEq

/-- The Go struct `Game` (src/main.go lines 23–36), restricted to the fields
the simulation reads or writes.  `generators` and `rotationAngles` are the
two length-4 slices, embedded as functions on `Fin 4`. -/
structure Game where
  mana : ℚ
  manaPerSec : ℤ
  orbClicked : Bool
  clickAnimation : ℕ
  generators : Fin 4 → Generator
  tickCounter : ℕ
  animationTime : ℚ
  rotationAngles : Fin 4 → ℚ
  totalMultiplier : ℚ

/-- Go's `int64(x)` conversion from `float64`: truncation toward zero.
For a rational `q` in lowest terms this is `q.num` T-divided by `q.den`. -/
def goTrunc (q : ℚ) : ℤ :=
  Int.tdiv q.num (q.den : ℤ)

/-- The product `1.0 * m₀ * m₁ * m₂ * m₃` of the four generators'
`manaMultiplier` fields, accumulated left to right exactly as the loop in
`calculateManaPerSec` (src/main.go lines 79–83) does. -/
def prodMultipliers (gens : Fin 4 → Generator) : ℚ :=
  1 * (gens 0).manaMultiplier * (gens 1).manaMultiplier
    * (gens 2).manaMultiplier * (gens 3).manaMultiplier

/-- `(*Game).calculateManaPerSec` (src/main.go lines 77–87): recompute the
cached `totalMultiplier` as the product of the multipliers and store the
display rate `manaPerSec = int64(totalMultiplier*100 + 0.5)` in hundredths. -/
def calculateManaPerSec (g : Game) : Game :=
  { g with
    totalMultiplier := prodMultipliers g.generators
    manaPerSec := goTrunc (prodMultipliers g.generators * 100 + 1/2) }

/-- The four generators built in `NewGame` (src/main.go lines 60–65):
`{name, cost, speedPerLevel, level, description, timer, manaMultiplier}`.
`0.1 = 1/10`, `0.08 = 2/25`, `0.05 = 1/20`, `0.02 = 1/50`. -/
def initialGenerators : Fin 4 → Generator :=
  ![⟨"Mana Crystal", 3, 1/10, 5, "Basic mana generation crystal", 0, 1⟩,
    ⟨"Arcane Tower", 50, 2/25, 0, "Mystical mana channeling tower", 0, 1⟩,
    ⟨"Ley Line Node", 250, 1/20, 0, "Powerful magical energy nexus", 0, 1⟩,
    ⟨"Elder Artifact", 1000, 1/50, 0, "Ancient relic of immense power", 0, 1⟩]

/-- `NewGame` (src/main.go lines 48–74): zero mana, zeroed slices, the four
fixed generators, then one call to `calculateManaPerSec`.  (Go zero-values
give `tickCounter = 0`, `rotationAngles = [0,0,0,0]`, `totalMultiplier = 0`
before that call.) -/
def NewGame : Game :=
  calculateManaPerSec
    { mana := 0
      manaPerSec := 0
      orbClicked := false
      clickAnimation := 0
      generators := initialGenerators
      tickCounter := 0
      animationTime := 0
      rotationAngles := fun _ => 0
      totalMultiplier := 0 }

/-- Click-animation decay at the top of `Update` (src/main.go lines 97–102):
decrement `clickAnimation` while positive; clear `orbClicked` when it is 0. -/
def clickDecay (g : Game) : Game :=
  { g with
    clickAnimation := if 0 < g.clickAnimation then g.clickAnimation - 1 else g.clickAnimation
    orbClicked :=
      if (if 0 < g.clickAnimation then g.clickAnimation - 1 else g.clickAnimation) = 0
      then false else g.orbClicked }

/-- `g.animationTime += 0.016` (src/main.go line 105); `0.016 = 2/125`. -/
def animPhase (g : Game) : Game :=
  { g with animationTime := g.animationTime + 2/125 }

/-- The body of `if g.totalMultiplier > 0 { g.mana += g.totalMultiplier }`
(src/main.go lines 112–115). -/
def accrue (g : Game) : Game :=
  if 0 < g.totalMultiplier then { g with mana := g.mana + g.totalMultiplier } else g

/-- The mana-production block of `Update` (src/main.go lines 108–117):
increment `tickCounter`; when it reaches 60, recompute the multiplier
product, add it to `mana` if positive, and reset the counter to 0. -/
def tickPhase (g : Game) : Game :=
  if 60 ≤ g.tickCounter + 1 then
    { accrue (calculateManaPerSec { g with tickCounter := g.tickCounter + 1 }) with
      tickCounter := 0 }
  else
    { g with tickCounter := g.tickCounter + 1 }

/-- One iteration of the rotation loop of `Update` (src/main.go lines
120–141) for a single generator, returning the updated generator and angle.
Angles are in units of π, so the Go threshold `2π` is `2` and the radians-
per-tick step `(speedPerLevel*level) * 2π / 60` is `(speedPerLevel*level) * 2 / 60`:

* generators with `level == 0` are skipped;
* otherwise the angle advances by the step; if the old angle was below the
  threshold and the new one reaches it, `manaMultiplier += 0.01`; finally the
  threshold is subtracted once if the new angle still reaches it. -/
def rotState (gen : Generator) (angle : ℚ) : Generator × ℚ :=
  if 0 < gen.level then
    (if angle < 2 ∧ 2 ≤ angle + gen.speedPerLevel * (gen.level : ℚ) * 2 / 60 then
       { gen with manaMultiplier := gen.manaMultiplier + 1/100 }
     else gen,
     if 2 ≤ angle + gen.speedPerLevel * (gen.level : ℚ) * 2 / 60 then
       angle + gen.speedPerLevel * (gen.level : ℚ) * 2 / 60 - 2
     else
       angle + gen.speedPerLevel * (gen.level : ℚ) * 2 / 60)
  else
    (gen, angle)

/-- The rotation loop of `Update` (src/main.go lines 120–141): each index is
read and written independently, so the loop is a pointwise map, written here
with the four iterations unrolled. -/
def rotPhase (g : Game) : Game :=
  let p0 := rotState (g.generators 0) (g.rotationAngles 0)
  let p1 := rotState (g.generators 1) (g.rotationAngles 1)
  let p2 := rotState (g.generators 2) (g.rotationAngles 2)
  let p3 := rotState (g.generators 3) (g.rotationAngles 3)
  { g with
    generators := ![p0.1, p1.1, p2.1, p3.1]
    rotationAngles := ![p0.2, p1.2, p2.2, p3.2] }

/-- The spec's `advance()`: the per-tick portion of `(*Game).Update`
(src/main.go lines 96–143), i.e. everything `Update` does apart from
dispatching mouse input, in source order. -/
def advance (g : Game) : Game :=
  rotPhase (tickPhase (animPhase (clickDecay g)))

/-- The per-generator cost growth `[1.15, 1.2, 1.2, 1.2]`
(src/main.go line 353): `1.15 = 23/20`, `1.2 = 6/5`. -/
def scalingFactor : Fin 4 → ℚ :=
  ![23/20, 6/5, 6/5, 6/5]

/-- The cost update `g.generators[i].cost *= scalingFactor`
(src/main.go lines 353–354). -/
def bumpCost (g : Game) (i : Fin 4) : Game :=
  { g with
    generators := Function.update g.generators i
      { g.generators i with cost := (g.generators i).cost * scalingFactor i } }

/-- The spec's `purchase(i)`: the purchase branch of
`(*Game).handleGeneratorClicks` (src/main.go lines 340–355).  If
`mana ≥ cost` and `level < 100`: subtract the cost, increment the level,
recompute via `calculateManaPerSec`, then scale the cost; otherwise the state
is returned unchanged. -/
def purchase (g : Game) (i : Fin 4) : Game :=
  if (g.generators i).cost ≤ g.mana then
    if (g.generators i).level < 100 then
      bumpCost
        (calculateManaPerSec
          { g with
            mana := g.mana - (g.generators i).cost
            generators := Function.update g.generators i
              { g.generators i with level := (g.generators i).level + 1 } })
        i
    else g
  else g

/-- Reachable game states: `NewGame` followed by any interleaving of ticks
(`advance`) and clicks (`purchase`). -/
inductive Reachable : Game → Prop
  | init : Reachable NewGame
  | adv {g : Game} : Reachable g → Reachable (advance g)
  | buy {g : Game} (i : Fin 4) : Reachable g → Reachable (purchase g i)

/-- Generator `i` crosses the 2π boundary during the rotation phase of the
next `advance` from `g`: it is active and its angle steps from below the
threshold to at least the threshold (src/main.go line 131; angles in units
of π). -/
def crossesBoundary (g : Game) (i : Fin 4) : Prop :=
  0 < (g.generators i).level ∧ g.rotationAngles i < 2 ∧
    2 ≤ g.rotationAngles i + (g.generators i).speedPerLevel * ((g.generators i).level : ℚ) * 2 / 60

instance decCrossesBoundary (g : Game) (i : Fin 4) : Decidable (crossesBoundary g i) := by
  unfold crossesBoundary
  exact inferInstance

/-- Overwrite the `manaPerSec` field only (used to state that the field is
write-only for the simulation). -/
def setManaPerSec (g : Game) (v : ℤ) : Game :=
  { g with manaPerSec := v }

/-- Structural bounds maintained by every reachable state: each rotation
angle is in `[0, 2)` (units of π, i.e. `[0, 2π)` in radians), each level is
at most 100, and each `speedPerLevel` is positive and at most `0.1` (the
largest of the four constants in `NewGame`). -/
def GoodState (g : Game) : Prop :=
  ∀ i : Fin 4,
    (0 ≤ g.rotationAngles i ∧ g.rotationAngles i < 2) ∧
    (g.generators i).level ≤ 100 ∧
    (0 < (g.generators i).speedPerLevel ∧ (g.generators i).speedPerLevel ≤ 1/10)

instance decGoodState (g : Game) : Decidable (GoodState g) := by
  unfold GoodState
  exact inferInstance

/-- Generators at level 0 still carry their initial multiplier `1.0`. -/
def InertInv (g : Game) : Prop :=
  ∀ i : Fin 4, (g.generators i).level = 0 → (g.generators i).manaMultiplier = 1

instance decInertInv (g : Game) : Decidable (InertInv g) := by
  unfold InertInv
  exact inferInstance

/-! ## Projection lemmas for the phases of `advance` -/

@[simp] theorem clickDecay_mana (g : Game) : (clickDecay g).mana = g.mana := rfl

@[simp] theorem clickDecay_generators (g : Game) : (clickDecay g).generators = g.generators := rfl

@[simp] theorem clickDecay_tickCounter (g : Game) : (clickDecay g).tickCounter = g.tickCounter := rfl

@[simp] theorem clickDecay_rotationAngles (g : Game) : (clickDecay g).rotationAngles = g.rotationAngles := rfl

@[simp] theorem clickDecay_totalMultiplier (g : Game) : (clickDecay g).totalMultiplier = g.totalMultiplier := rfl

@[simp] theorem animPhase_mana (g : Game) : (animPhase g).mana = g.mana := rfl

@[simp] theorem animPhase_generators (g : Game) : (animPhase g).generators = g.generators := rfl

@[simp] theorem animPhase_tickCounter (g : Game) : (animPhase g).tickCounter = g.tickCounter := rfl

@[simp] theorem animPhase_rotationAngles (g : Game) : (animPhase g).rotationAngles = g.rotationAngles := rfl

@[simp] theorem animPhase_totalMultiplier (g : Game) : (animPhase g).totalMultiplier = g.totalMultiplier := rfl

@[simp] theorem calculateManaPerSec_mana (g : Game) : (calculateManaPerSec g).mana = g.mana := rfl

@[simp] theorem calculateManaPerSec_generators (g : Game) :
    (calculateManaPerSec g).generators = g.generators := rfl

@[simp] theorem calculateManaPerSec_tickCounter (g : Game) :
    (calculateManaPerSec g).tickCounter = g.tickCounter := rfl

@[simp] theorem calculateManaPerSec_rotationAngles (g : Game) :
    (calculateManaPerSec g).rotationAngles = g.rotationAngles := rfl

@[simp] theorem calculateManaPerSec_totalMultiplier (g : Game) :
    (calculateManaPerSec g).totalMultiplier = prodMultipliers g.generators := rfl

theorem tickPhase_generators (g : Game) : (tickPhase g).generators = g.generators := by
  unfold tickPhase accrue
  split <;> [skip; rfl]
  split <;> rfl

theorem tickPhase_rotationAngles (g : Game) : (tickPhase g).rotationAngles = g.rotationAngles := by
  unfold tickPhase accrue
  split <;> [skip; rfl]
  split <;> rfl

theorem tickPhase_tickCounter (g : Game) :
    (tickPhase g).tickCounter = if 60 ≤ g.tickCounter + 1 then 0 else g.tickCounter + 1 := by
  unfold tickPhase accrue
  split <;> [skip; rfl]
  split <;> rfl

theorem tickPhase_mana (g : Game) :
    (tickPhase g).mana =
      if 60 ≤ g.tickCounter + 1 then
        (if 0 < prodMultipliers g.generators then g.mana + prodMultipliers g.generators else g.mana)
      else g.mana := by
  unfold tickPhase accrue calculateManaPerSec
  split <;> [skip; rfl]
  split <;> rfl

theorem tickPhase_totalMultiplier (g : Game) :
    (tickPhase g).totalMultiplier =
      if 60 ≤ g.tickCounter + 1 then prodMultipliers g.generators else g.totalMultiplier := by
  unfold tickPhase accrue calculateManaPerSec
  split <;> [skip; rfl]
  split <;> rfl

@[simp] theorem rotPhase_mana (g : Game) : (rotPhase g).mana = g.mana := rfl

@[simp] theorem rotPhase_tickCounter (g : Game) : (rotPhase g).tickCounter = g.tickCounter := rfl

@[simp] theorem rotPhase_totalMultiplier (g : Game) : (rotPhase g).totalMultiplier = g.totalMultiplier := rfl

theorem rotPhase_generators (g : Game) (i : Fin 4) :
    (rotPhase g).generators i = (rotState (g.generators i) (g.rotationAngles i)).1 := by
  fin_cases i <;> rfl

theorem rotPhase_rotationAngles (g : Game) (i : Fin 4) :
    (rotPhase g).rotationAngles i = (rotState (g.generators i) (g.rotationAngles i)).2 := by
  fin_cases i <;> rfl

/-! ## `advance`: field-level characterization -/

theorem advance_generators (g : Game) (i : Fin 4) :
    (advance g).generators i = (rotState (g.generators i) (g.rotationAngles i)).1 := by
  unfold advance
  rw [rotPhase_generators, tickPhase_generators, tickPhase_rotationAngles]
  simp

theorem advance_rotationAngles (g : Game) (i : Fin 4) :
    (advance g).rotationAngles i = (rotState (g.generators i) (g.rotationAngles i)).2 := by
  unfold advance
  rw [rotPhase_rotationAngles, tickPhase_generators, tickPhase_rotationAngles]
  simp

theorem advance_mana (g : Game) :
    (advance g).mana =
      if 60 ≤ g.tickCounter + 1 then
        (if 0 < prodMultipliers g.generators then g.mana + prodMultipliers g.generators else g.mana)
      else g.mana := by
  unfold advance
  rw [rotPhase_mana, tickPhase_mana]
  simp

theorem advance_tickCounter (g : Game) :
    (advance g).tickCounter = if 60 ≤ g.tickCounter + 1 then 0 else g.tickCounter + 1 := by
  unfold advance
  rw [rotPhase_tickCounter, tickPhase_tickCounter]
  simp

theorem advance_totalMultiplier (g : Game) :
    (advance g).totalMultiplier =
      if 60 ≤ g.tickCounter + 1 then prodMultipliers g.generators else g.totalMultiplier := by
  unfold advance
  rw [rotPhase_totalMultiplier, tickPhase_totalMultiplier]
  simp

/-! ## `rotState` lemmas -/

theorem rotState_of_level_eq_zero (gen : Generator) (a : ℚ) (h : gen.level = 0) :
    rotState gen a = (gen, a) := by
  unfold rotState
  simp [h]

theorem rotState_fst_level (gen : Generator) (a : ℚ) :
    ((rotState gen a).1).level = gen.level := by
  unfold rotState
  split <;> [split <;> rfl; rfl]

theorem rotState_fst_speedPerLevel (gen : Generator) (a : ℚ) :
    ((rotState gen a).1).speedPerLevel = gen.speedPerLevel := by
  unfold rotState
  split <;> [split <;> rfl; rfl]

theorem rotState_fst_cost (gen : Generator) (a : ℚ) :
    ((rotState gen a).1).cost = gen.cost := by
  unfold rotState
  split <;> [split <;> rfl; rfl]

theorem rotState_fst_manaMultiplier (gen : Generator) (a : ℚ) (h : 0 < gen.level) :
    ((rotState gen a).1).manaMultiplier =
      gen.manaMultiplier +
        (if a < 2 ∧ 2 ≤ a + gen.speedPerLevel * (gen.level : ℚ) * 2 / 60 then 1/100 else 0) := by
  unfold rotState
  rw [if_pos h]
  split <;> simp

theorem rotState_snd (gen : Generator) (a : ℚ) (h : 0 < gen.level) :
    (rotState gen a).2 =
      if 2 ≤ a + gen.speedPerLevel * (gen.level : ℚ) * 2 / 60 then
        a + gen.speedPerLevel * (gen.level : ℚ) * 2 / 60 - 2
      else
        a + gen.speedPerLevel * (gen.level : ℚ) * 2 / 60 := by
  unfold rotState
  rw [if_pos h]

theorem rotState_fst_of_not_cross (gen : Generator) (a : ℚ)
    (h : ¬ (0 < gen.level ∧ a < 2 ∧ 2 ≤ a + gen.speedPerLevel * (gen.level : ℚ) * 2 / 60)) :
    (rotState gen a).1 = gen := by
  unfold rotState
  by_cases hl : 0 < gen.level
  · rw [if_pos hl]
    have : ¬ (a < 2 ∧ 2 ≤ a + gen.speedPerLevel * (gen.level : ℚ) * 2 / 60) := fun hc => h ⟨hl, hc⟩
    simp [this]
  · rw [if_neg hl]

/-! ## `prodMultipliers` lemmas -/

theorem prodMultipliers_congr {gens gens' : Fin 4 → Generator}
    (h : ∀ i, (gens' i).manaMultiplier = (gens i).manaMultiplier) :
    prodMultipliers gens' = prodMultipliers gens := by
  unfold prodMultipliers
  rw [h 0, h 1, h 2, h 3]

/-! ## `purchase` lemmas -/

theorem purchase_of_cost_gt (g : Game) (i : Fin 4) (h : g.mana < (g.generators i).cost) :
    purchase g i = g := by
  unfold purchase
  rw [if_neg (not_le.mpr h)]

theorem purchase_of_level_ge (g : Game) (i : Fin 4) (h : 100 ≤ (g.generators i).level) :
    purchase g i = g := by
  unfold purchase
  split <;> [rw [if_neg (not_lt.mpr h)]; rfl]

theorem purchase_mana (g : Game) (i : Fin 4)
    (hm : (g.generators i).cost ≤ g.mana) (hl : (g.generators i).level < 100) :
    (purchase g i).mana = g.mana - (g.generators i).cost := by
  unfold purchase bumpCost
  rw [if_pos hm, if_pos hl]
  rfl

theorem purchase_generators (g : Game) (i : Fin 4)
    (hm : (g.generators i).cost ≤ g.mana) (hl : (g.generators i).level < 100) :
    (purchase g i).generators =
      Function.update
        (Function.update g.generators i { g.generators i with level := (g.generators i).level + 1 }) i
        { g.generators i with
          level := (g.generators i).level + 1
          cost := (g.generators i).cost * scalingFactor i } := by
  unfold purchase bumpCost
  rw [if_pos hm, if_pos hl]
  simp only [calculateManaPerSec_generators]
  simp [Function.update_same]

theorem purchase_rotationAngles (g : Game) (i : Fin 4) :
    (purchase g i).rotationAngles = g.rotationAngles := by
  unfold purchase bumpCost
  split <;> [split <;> rfl; rfl]

theorem purchase_tickCounter (g : Game) (i : Fin 4) :
    (purchase g i).tickCounter = g.tickCounter := by
  unfold purchase bumpCost
  split <;> [split <;> rfl; rfl]

theorem purchase_manaMultiplier (g : Game) (i j : Fin 4) :
    ((purchase g i).generators j).manaMultiplier = (g.generators j).manaMultiplier := by
  unfold purchase bumpCost
  split <;> [skip; rfl]
  split <;> [skip; rfl]
  simp only [calculateManaPerSec_generators]
  by_cases h : j = i
  · subst h
    simp [Function.update_same]
  · simp [Function.update_noteq h]

theorem purchase_level (g : Game) (i j : Fin 4) :
    ((purchase g i).generators j).level =
      if (g.generators i).cost ≤ g.mana ∧ (g.generators i).level < 100 ∧ j = i then
        (g.generators i).level + 1
      else (g.generators j).level := by
  unfold purchase bumpCost
  split <;> rename_i hm
  · split <;> rename_i hl
    · simp only [calculateManaPerSec_generators]
      by_cases h : j = i
      · subst h
        simp [Function.update_same, hm, hl]
      · simp [Function.update_noteq h, hm, hl, h]
    · simp [hl]
  · simp [hm]

theorem purchase_totalMultiplier_success (g : Game) (i : Fin 4)
    (hm : (g.generators i).cost ≤ g.mana) (hl : (g.generators i).level < 100) :
    (purchase g i).totalMultiplier = prodMultipliers (purchase g i).generators := by
  have hmul : ∀ j, ((purchase g i).generators j).manaMultiplier = (g.generators j).manaMultiplier :=
    purchase_manaMultiplier g i
  have hlhs : (purchase g i).totalMultiplier =
      prodMultipliers (Function.update g.generators i
        { g.generators i with level := (g.generators i).level + 1 }) := by
    unfold purchase bumpCost
    rw [if_pos hm, if_pos hl]
    rfl
  rw [hlhs, prodMultipliers_congr hmul]
  refine prodMultipliers_congr fun j => ?_
  by_cases h : j = i
  · subst h
    simp [Function.update_same]
  · simp [Function.update_noteq h]

theorem purchase_speedPerLevel (g : Game) (i j : Fin 4) :
    ((purchase g i).generators j).speedPerLevel = (g.generators j).speedPerLevel := by
  unfold purchase bumpCost
  split <;> [skip; rfl]
  split <;> [skip; rfl]
  simp only [calculateManaPerSec_generators]
  by_cases h : j = i
  · subst h
    simp [Function.update_same]
  · simp [Function.update_noteq h]

theorem advance_level (g : Game) (i : Fin 4) :
    ((advance g).generators i).level = (g.generators i).level := by
  rw [advance_generators, rotState_fst_level]

theorem scalingFactor_eq (i : Fin 4) : scalingFactor i = if i = 0 then 23/20 else 6/5 := by
  fin_cases i <;> rfl

theorem reachable_iterate_advance (n : ℕ) (g : Game) (h : Reachable g) :
    Reachable (advance^[n] g) := by
  induction n with
  | zero => exact h
  | succ n ih =>
    rw [Function.iterate_succ_apply']
    exact Reachable.adv ih

/-! ## Invariant preservation -/

theorem goodState_NewGame : GoodState NewGame :=
  of_decide_eq_true (by with_unfolding_all rfl)

theorem goodState_advance {g : Game} (h : GoodState g) : GoodState (advance g) := by
  intro i
  obtain ⟨⟨ha0, ha2⟩, hlev, hs0, hs1⟩ := h i
  refine ⟨?_, ?_, ?_, ?_⟩
  · rw [advance_rotationAngles]
    by_cases hl : 0 < (g.generators i).level
    · rw [rotState_snd _ _ hl]
      have hL0 : (0:ℚ) < ((g.generators i).level : ℚ) := by exact_mod_cast hl
      have hL100 : ((g.generators i).level : ℚ) ≤ 100 := by exact_mod_cast hlev
      have hstep0 : 0 < (g.generators i).speedPerLevel * ((g.generators i).level : ℚ) * 2 / 60 := by
        positivity
      have hstep : (g.generators i).speedPerLevel * ((g.generators i).level : ℚ) * 2 / 60 ≤ 1/3 := by
        have hmul : (g.generators i).speedPerLevel * ((g.generators i).level : ℚ) ≤ (1/10) * 100 :=
          mul_le_mul hs1 hL100 (le_of_lt hL0) (by norm_num)
        linarith
      rcases le_or_lt 2
          (g.rotationAngles i + (g.generators i).speedPerLevel * ((g.generators i).level : ℚ) * 2 / 60)
        with hc | hc
      · rw [if_pos hc]
        constructor <;> linarith
      · rw [if_neg (not_le.mpr hc)]
        constructor <;> linarith
    · rw [rotState_of_level_eq_zero _ _ (Nat.eq_zero_of_not_pos hl)]
      exact ⟨ha0, ha2⟩
  · rw [advance_level]
    exact hlev
  · rw [advance_generators, rotState_fst_speedPerLevel]
    exact hs0
  · rw [advance_generators, rotState_fst_speedPerLevel]
    exact hs1

theorem goodState_purchase {g : Game} (h : GoodState g) (i : Fin 4) :
    GoodState (purchase g i) := by
  intro j
  obtain ⟨hang, hlev, hs⟩ := h j
  refine ⟨?_, ?_, ?_⟩
  · rw [purchase_rotationAngles]
    exact hang
  · rw [purchase_level]
    split
    · rename_i hc
      omega
    · exact hlev
  · rw [purchase_speedPerLevel]
    exact hs

theorem goodState_reachable (g : Game) (h : Reachable g) : GoodState g := by
  induction h with
  | init => exact goodState_NewGame
  | adv _ ih => exact goodState_advance ih
  | buy i _ ih => exact goodState_purchase ih i

theorem inertInv_NewGame : InertInv NewGame :=
  of_decide_eq_true (by with_unfolding_all rfl)

theorem inertInv_advance {g : Game} (h : InertInv g) : InertInv (advance g) := by
  intro i hi
  rw [advance_level] at hi
  rw [advance_generators, rotState_of_level_eq_zero _ _ hi]
  exact h i hi

theorem inertInv_purchase {g : Game} (h : InertInv g) (i : Fin 4) : InertInv (purchase g i) := by
  intro j hj
  rw [purchase_manaMultiplier]
  rw [purchase_level] at hj
  split at hj
  · omega
  · exact h j hj

theorem inertInv_reachable (g : Game) (h : Reachable g) : InertInv g := by
  induction h with
  | init => exact inertInv_NewGame
  | adv _ ih => exact inertInv_advance ih
  | buy i _ ih => exact inertInv_purchase ih i

/-! ## Claim theorems -/

/-- C2: whenever `purchase i` is called with `mana ≥ cost` and `level < 100`,
afterwards `mana` is the old mana minus the old cost, `level` is the old
level plus 1, `totalMultiplier` equals the (recomputed) product of the
multipliers, and `cost` is the old cost times the per-producer growth factor
(`1.15` for producer 0, `1.20` for producers 1–3); in particular, from
producer 0 at `cost = 3.0`, `level = 5` and `mana = 3.0`, `purchase 0`
yields `mana = 0`, `level = 6`, `cost = 3.45 = 69/20`. -/
theorem C2_purchase_success (g : Game) (i : Fin 4)
    (hm : (g.generators i).cost ≤ g.mana) (hl : (g.generators i).level < 100) :
    (purchase g i).mana = g.mana - (g.generators i).cost ∧
    ((purchase g i).generators i).level = (g.generators i).level + 1 ∧
    (purchase g i).totalMultiplier = prodMultipliers ((purchase g i).generators) ∧
    ((purchase g i).generators i).cost =
      (g.generators i).cost * (if i = 0 then 23/20 else 6/5) ∧
    (purchase { NewGame with mana := 3 } 0).mana = 0 ∧
    ((purchase { NewGame with mana := 3 } 0).generators 0).level = 6 ∧
    ((purchase { NewGame with mana := 3 } 0).generators 0).cost = 69/20 := by
  refine ⟨purchase_mana g i hm hl, ?_, purchase_totalMultiplier_success g i hm hl, ?_,
    of_decide_eq_true (by with_unfolding_all rfl),
    of_decide_eq_true (by with_unfolding_all rfl),
    of_decide_eq_true (by with_unfolding_all rfl)⟩
  · rw [purchase_generators g i hm hl]
    simp [Function.update_same]
  · rw [purchase_generators g i hm hl, ← scalingFactor_eq]
    simp [Function.update_same]

/-- C2 witness: the successful-purchase theorem applied at the spec's
concrete scenario (`mana = 3`, producer 0 at `cost = 3`, `level = 5`). -/
theorem C2_purchase_success_witness :
    (purchase { NewGame with mana := 3 } 0).mana =
      { NewGame with mana := 3 }.mana - (({ NewGame with mana := 3 } : Game).generators 0).cost :=
  (C2_purchase_success { NewGame with mana := 3 } 0
    (of_decide_eq_true (by with_unfolding_all rfl))
    (of_decide_eq_true (by with_unfolding_all rfl))).1

/-- C3: if `mana < cost` or `level ≥ 100`, `purchase i` is a strict no-op:
the entire game state (mana, every generator's level, cost and multiplier,
rotation angles, tick accumulator, totalMultiplier, and all other fields) is
returned unchanged. -/
theorem C3_purchase_noop (g : Game) (i : Fin 4)
    (h : g.mana < (g.generators i).cost ∨ 100 ≤ (g.generators i).level) :
    purchase g i = g := by
  rcases h with h | h
  · exact purchase_of_cost_gt g i h
  · exact purchase_of_level_ge g i h

/-- C3 witness: at `NewGame` (mana 0 < cost 3) the purchase is a no-op. -/
theorem C3_purchase_noop_witness : purchase NewGame 0 = NewGame :=
  C3_purchase_noop NewGame 0 (Or.inl (of_decide_eq_true (by with_unfolding_all rfl)))

set_option maxRecDepth 4000000 in
/-- C4: from the initial state (`mana = 0`, tick accumulator 0, all
multipliers 1.0 so `totalMultiplier = 1`), after exactly 60 `advance` calls
`mana = 1.0` and the tick accumulator is back to 0; moreover an `advance`
adds to `mana` only when the incremented accumulator reaches 60 and the
recomputed multiplier product is positive. -/
theorem C4_accrual_after_60_ticks :
    NewGame.mana = 0 ∧ NewGame.tickCounter = 0 ∧ NewGame.totalMultiplier = 1 ∧
    (advance^[60] NewGame).mana = 1 ∧ (advance^[60] NewGame).tickCounter = 0 ∧
    ∀ g : Game, ¬ (60 ≤ g.tickCounter + 1 ∧ 0 < prodMultipliers g.generators) →
      (advance g).mana = g.mana := by
  refine ⟨rfl, rfl, of_decide_eq_true (by with_unfolding_all rfl),
    of_decide_eq_true (by with_unfolding_all rfl),
    of_decide_eq_true (by with_unfolding_all rfl), ?_⟩
  intro g h
  rw [advance_mana]
  by_cases h1 : 60 ≤ g.tickCounter + 1
  · rw [if_pos h1, if_neg (fun h2 => h ⟨h1, h2⟩)]
  · rw [if_neg h1]

/-- C4 witness: the accrual-condition conjunct applied at `NewGame`
(accumulator 0, so no accrual in the first tick). -/
theorem C4_accrual_after_60_ticks_witness : (advance NewGame).mana = NewGame.mana :=
  C4_accrual_after_60_ticks.2.2.2.2.2 NewGame (by decide)

/-- C5: in one `advance` from any state, an active generator
(`level > 0`) has its angle stepped by `speedPerLevel * level * 2π/60`
(angles here in units of π, so the threshold `2π` is `2`), its multiplier
grows by exactly `0.01` iff the old angle was below the threshold and the
stepped angle reaches it (a single increment even if the step spans several
revolutions), and the threshold is subtracted exactly once iff the stepped
angle reaches it. -/
theorem C5_rotation_step (g : Game) (i : Fin 4) (h : 0 < (g.generators i).level) :
    ((advance g).generators i).manaMultiplier =
      (g.generators i).manaMultiplier +
        (if g.rotationAngles i < 2 ∧
            2 ≤ g.rotationAngles i +
              (g.generators i).speedPerLevel * ((g.generators i).level : ℚ) * 2 / 60
          then 1/100 else 0) ∧
    (advance g).rotationAngles i =
      (if 2 ≤ g.rotationAngles i +
            (g.generators i).speedPerLevel * ((g.generators i).level : ℚ) * 2 / 60
        then g.rotationAngles i +
          (g.generators i).speedPerLevel * ((g.generators i).level : ℚ) * 2 / 60 - 2
        else g.rotationAngles i +
          (g.generators i).speedPerLevel * ((g.generators i).level : ℚ) * 2 / 60) := by
  constructor
  · rw [advance_generators, rotState_fst_manaMultiplier _ _ h]
  · rw [advance_rotationAngles, rotState_snd _ _ h]

/-- C5 witness: the rotation-step theorem applied to generator 0 of
`NewGame` (level 5). -/
theorem C5_rotation_step_witness :
    ((advance NewGame).generators 0).manaMultiplier =
      (NewGame.generators 0).manaMultiplier +
        (if NewGame.rotationAngles 0 < 2 ∧
            2 ≤ NewGame.rotationAngles 0 +
              (NewGame.generators 0).speedPerLevel * ((NewGame.generators 0).level : ℚ) * 2 / 60
          then 1/100 else 0) :=
  (C5_rotation_step NewGame 0 (by decide)).1

/-- C10: an `advance` whose incremented tick accumulator stays below 60
leaves `mana` unchanged and increases the accumulator by exactly 1. -/
theorem C10_no_accrual_below_boundary (g : Game) (h : g.tickCounter + 1 < 60) :
    (advance g).mana = g.mana ∧ (advance g).tickCounter = g.tickCounter + 1 := by
  rw [advance_mana, advance_tickCounter, if_neg (not_le.mpr h), if_neg (not_le.mpr h)]
  exact ⟨rfl, rfl⟩

/-- C10 witness: applied at `NewGame` (accumulator 0). -/
theorem C10_no_accrual_below_boundary_witness :
    (advance NewGame).mana = NewGame.mana ∧ (advance NewGame).tickCounter = NewGame.tickCounter + 1 :=
  C10_no_accrual_below_boundary NewGame (by decide)

/-- C6: mana is non-negative in every reachable state: it starts at 0,
`advance` only ever adds the (positive) recomputed multiplier product, and
`purchase` subtracts a cost only when `mana` already covers it. -/
theorem C6_mana_nonneg (g : Game) (h : Reachable g) : 0 ≤ g.mana := by
  induction h with
  | init => exact le_of_eq rfl
  | @adv g' hg ih =>
    rw [advance_mana]
    split_ifs with h1 h2
    · linarith
    · exact ih
    · exact ih
  | @buy g' i hg ih =>
    by_cases hm : (g'.generators i).cost ≤ g'.mana
    · by_cases hl : (g'.generators i).level < 100
      · rw [purchase_mana g' i hm hl]
        linarith
      · rw [purchase_of_level_ge g' i (not_lt.mp hl)]
        exact ih
    · rw [purchase_of_cost_gt g' i (not_le.mp hm)]
      exact ih

/-- C6 witness: the non-negativity theorem applied at the initial state. -/
theorem C6_mana_nonneg_witness : 0 ≤ NewGame.mana :=
  C6_mana_nonneg NewGame Reachable.init

/-- C7: in every reachable state each rotation angle lies in `[0, 2π)`
(`[0, 2)` in the units-of-π encoding): the level cap of 100 and the
`speedPerLevel` constants (all at most `0.1`) bound the per-tick step by
`π/3`, so the single subtraction of `2π` after a crossing always lands back
inside the interval. -/
theorem C7_angles_in_range (g : Game) (h : Reachable g) (i : Fin 4) :
    0 ≤ g.rotationAngles i ∧ g.rotationAngles i < 2 :=
  (goodState_reachable g h i).1

/-- C7 witness: the range theorem applied at the initial state, index 0. -/
theorem C7_angles_in_range_witness :
    0 ≤ NewGame.rotationAngles 0 ∧ NewGame.rotationAngles 0 < 2 :=
  C7_angles_in_range NewGame Reachable.init 0

/-- C8: a generator at level 0 is inert under `advance` — its whole record
(hence its multiplier) and its rotation angle are returned unchanged — and
in every reachable state a level-0 generator still carries its initial
multiplier `1.0`, the value it contributes to the product. -/
theorem C8_inert_level_zero (g : Game) (i : Fin 4) :
    ((g.generators i).level = 0 →
      (advance g).generators i = g.generators i ∧
      (advance g).rotationAngles i = g.rotationAngles i) ∧
    (Reachable g → (g.generators i).level = 0 → (g.generators i).manaMultiplier = 1) := by
  constructor
  · intro h
    rw [advance_generators, advance_rotationAngles, rotState_of_level_eq_zero _ _ h]
    exact ⟨rfl, rfl⟩
  · intro hr h
    exact inertInv_reachable g hr i h

/-- C8 witness: generator 1 of `NewGame` has level 0; `advance` leaves it
unchanged and its multiplier is `1.0`. -/
theorem C8_inert_level_zero_witness :
    (advance NewGame).generators 1 = NewGame.generators 1 ∧
      (NewGame.generators 1).manaMultiplier = 1 :=
  ⟨((C8_inert_level_zero NewGame 1).1 (by decide)).1,
   (C8_inert_level_zero NewGame 1).2 Reachable.init (by decide)⟩

theorem advance_setManaPerSec (g : Game) (v : ℤ) :
    setManaPerSec (advance (setManaPerSec g v)) 0 = setManaPerSec (advance g) 0 := by
  simp only [advance, rotPhase, tickPhase, accrue, calculateManaPerSec, animPhase, clickDecay,
    setManaPerSec]
  split_ifs <;> rfl

theorem purchase_setManaPerSec (g : Game) (v : ℤ) (i : Fin 4) :
    setManaPerSec (purchase (setManaPerSec g v) i) 0 = setManaPerSec (purchase g i) 0 := by
  simp only [purchase, bumpCost, calculateManaPerSec, setManaPerSec]
  split_ifs <;> rfl

theorem advance_accrual_amount (g : Game) (h1 : 60 ≤ g.tickCounter + 1)
    (h2 : 0 < prodMultipliers g.generators) :
    (advance g).mana = g.mana + prodMultipliers g.generators := by
  rw [advance_mana, if_pos h1, if_pos h2]

/-- C9: the `manaPerSec` field is display-only.  Overwriting it with an
arbitrary value before an `advance` or `purchase` changes nothing in the
resulting state except the `manaPerSec` field itself; and at an accrual
boundary with positive multiplier product, `mana` grows by the exact
(full-precision) product, not by the rounded `manaPerSec` value. -/
theorem C9_manaPerSec_display_only :
    (∀ (g : Game) (v : ℤ),
        setManaPerSec (advance (setManaPerSec g v)) 0 = setManaPerSec (advance g) 0 ∧
        ∀ i : Fin 4,
          setManaPerSec (purchase (setManaPerSec g v) i) 0 = setManaPerSec (purchase g i) 0) ∧
    (∀ g : Game, 60 ≤ g.tickCounter + 1 → 0 < prodMultipliers g.generators →
        (advance g).mana = g.mana + prodMultipliers g.generators) :=
  ⟨fun g v => ⟨advance_setManaPerSec g v, purchase_setManaPerSec g v⟩,
   advance_accrual_amount⟩

/-- C9 witness: the accrual-amount part applied at `NewGame` with the
accumulator at 59 (so the next tick is an accrual boundary). -/
theorem C9_manaPerSec_display_only_witness :
    (advance { NewGame with tickCounter := 59 }).mana =
      ({ NewGame with tickCounter := 59 } : Game).mana +
        prodMultipliers ({ NewGame with tickCounter := 59 } : Game).generators :=
  C9_manaPerSec_display_only.2 { NewGame with tickCounter := 59 } (by decide)
    (of_decide_eq_true (by with_unfolding_all rfl))

set_option maxRecDepth 4000000 in
/-- C1 counterexample: the claim fails on the code.  The state reached by
120 `advance` calls from `NewGame` is reachable and is itself the result of
an `advance` call (from the state after 119 calls), yet its cached
`totalMultiplier` (still `1.0`) differs from the product of the multipliers
(`1.01`): the 120th tick's rotation phase increments generator 0's
multiplier after the accrual phase recomputed the cache, and nothing
recomputes it again within that call. -/
theorem C1_total_multiplier_counterexample :
    Reachable (advance (advance^[119] NewGame)) ∧
    (advance (advance^[119] NewGame)).totalMultiplier ≠
      prodMultipliers ((advance (advance^[119] NewGame)).generators) :=
  ⟨Reachable.adv (reachable_iterate_advance 119 NewGame Reachable.init),
   of_decide_eq_true (by with_unfolding_all rfl)⟩

/-- C1 (amended): in any state whose cached `totalMultiplier` equals the
product of the four multipliers, the equality still holds immediately after
any `purchase` call, and after any `advance` call in which no generator's
rotation crosses the 2π boundary; after an `advance` with a crossing the
cache can lag the product (see the counterexample) until the next accrual
boundary or successful purchase recomputes it. -/
theorem C1_total_multiplier_amended (g : Game)
    (h : g.totalMultiplier = prodMultipliers g.generators) :
    (∀ i : Fin 4, (purchase g i).totalMultiplier = prodMultipliers ((purchase g i).generators)) ∧
    ((∀ i : Fin 4, ¬ crossesBoundary g i) →
      (advance g).totalMultiplier = prodMultipliers ((advance g).generators)) := by
  constructor
  · intro i
    by_cases hm : (g.generators i).cost ≤ g.mana
    · by_cases hl : (g.generators i).level < 100
      · exact purchase_totalMultiplier_success g i hm hl
      · rw [purchase_of_level_ge g i (not_lt.mp hl)]
        exact h
    · rw [purchase_of_cost_gt g i (not_le.mp hm)]
      exact h
  · intro hnc
    have hgen : ∀ i, (advance g).generators i = g.generators i := by
      intro i
      rw [advance_generators]
      exact rotState_fst_of_not_cross _ _ (hnc i)
    have hprod : prodMultipliers ((advance g).generators) = prodMultipliers g.generators :=
      prodMultipliers_congr fun i => by rw [hgen i]
    rw [advance_totalMultiplier, hprod]
    split
    · rfl
    · exact h

/-- C1 (amended) witness: at `NewGame` the invariant holds, no generator
crosses in the first tick, and the invariant holds after that `advance`. -/
theorem C1_total_multiplier_amended_witness :
    (advance NewGame).totalMultiplier = prodMultipliers ((advance NewGame).generators) :=
  (C1_total_multiplier_amended NewGame (of_decide_eq_true (by with_unfolding_all rfl))).2
    (of_decide_eq_true (by with_unfolding_all rfl))
